import Mathlib

/-!
Shallow embedding of the raft-rs decision core (src/logger.rs, src/role.rs,
src/peer.rs).  Pure functions are translated directly; methods that mutate
`self` become state-passing functions; a Rust panic (`assert!` failure,
`unreachable!()`, `unimplemented!()`) is modelled as `none` in an `Option`
result.  Real-time fields (`SystemTime`, `Duration` randomness) and the RPC
transport are outside the embedding: the rolled election interval is passed
as an explicit argument, and vote / receipt collection (which is concurrent
I/O in the source) is represented by passing the collected results to the
step functions.
-/

/-- src/logger.rs `SequenceID { term: usize, index: usize }`. -/
structure SequenceID where
  term : Nat
  index : Nat
deriving DecidableEq, Repr

/-- Rust's `Ord` for `usize`: `.lt` / `.eq` / `.gt` by the usual order. -/
def natCmp (a b : Nat) : Ordering :=
  if a < b then .lt else if a = b then .eq else .gt

/-- The `#[derive(Ord, PartialOrd)]` comparison on `SequenceID`:
lexicographic in field declaration order, `term` then `index`. -/
def SequenceID.cmp (a b : SequenceID) : Ordering :=
  (natCmp a.term b.term).then (natCmp a.index b.index)

/-- Rust's derived `PartialOrd` on `Option<SequenceID>`:
`None < Some(_)`, and `Some` compares the payloads. -/
def optSeqCmp : Option SequenceID → Option SequenceID → Ordering
  | none, none => .eq
  | none, some _ => .lt
  | some _, none => .gt
  | some a, some b => a.cmp b

/-- `a >= b` on `Option<SequenceID>` (used in `follower_grant`). -/
def optSeqGe (a b : Option SequenceID) : Bool :=
  match optSeqCmp a b with
  | .lt => false
  | _ => true

/-- src/rpc.rs `EndPoint { ip: String, port: u16 }`. -/
structure Endpoint where
  ip : String
  port : Nat
deriving DecidableEq, Repr

/-- src/logger.rs `Logger`: persistent `term` and `entries`, volatile
`committed` and `applied` cursors. -/
structure Logger where
  term : Nat
  entries : List SequenceID
  committed : Nat
  applied : Nat
deriving DecidableEq, Repr

/-- `Logger::default()` (all fields `Default`). -/
instance : Inhabited Logger := ⟨⟨0, [], 0, 0⟩⟩

/-- `Logger::new(seq_ids)`: default when empty, else seed `term` from the
last entry; `committed`/`applied` start at 0 (source TODO). -/
def Logger.new (seq_ids : List SequenceID) : Logger :=
  match seq_ids.getLast? with
  | none => default
  | some last => { term := last.term, entries := seq_ids, committed := 0, applied := 0 }

/-- `Logger::last_seq_id()`: `self.entries.get(self.applied)`. -/
def Logger.last_seq_id (l : Logger) : Option SequenceID :=
  l.entries.get? l.applied

/-- `Logger::new_term()`: increment term, return the new value and state. -/
def Logger.new_term (l : Logger) : Nat × Logger :=
  (l.term + 1, { l with term := l.term + 1 })

/-- `Logger::set_term(term)`: `assert!(self.term > term); self.term = term;`.
The failed assertion (a panic) is `none`. -/
def Logger.set_term (l : Logger) (term : Nat) : Option Logger :=
  if l.term > term then some { l with term := term } else none

/-- src/role.rs `Signature { endpoint, term, seq_id }`. -/
structure Signature where
  endpoint : Endpoint
  term : Nat
  seq_id : Option SequenceID
deriving DecidableEq, Repr

/-- src/role.rs `Vote { granted, peer }`. -/
structure Vote where
  granted : Bool
  peer : Signature
deriving DecidableEq, Repr

/-- `Vote::grant(peer)`. -/
def Vote.grant (peer : Signature) : Vote := ⟨true, peer⟩

/-- `Vote::deny(peer)`. -/
def Vote.deny (peer : Signature) : Vote := ⟨false, peer⟩

/-- src/role.rs `Receipt { success, term, endpoint }` (same shape in
src/peer.rs). -/
structure Receipt where
  success : Bool
  term : Nat
  endpoint : Endpoint
deriving DecidableEq, Repr

/-- src/role.rs `Diverged { next, matched }`. -/
structure Diverged where
  next : Nat
  matched : Option SequenceID
deriving DecidableEq, Repr

/-- `Diverged::new(next)`. -/
def Diverged.new (next : Nat) : Diverged := ⟨next, none⟩

/-- src/role.rs `Role`.  The Follower's `last_heart_beat: SystemTime` is
real time and is outside the embedding; the `voted` field is kept.  The
Leader's follower map is modelled as an association list. -/
inductive Role where
  | follower (voted : Option Endpoint)
  | candidate
  | leader (followers : List (Endpoint × Diverged))
deriving DecidableEq, Repr

/-- The variant of a `Role` with its payload erased. -/
inductive RoleTag where
  | follower
  | candidate
  | leader
deriving DecidableEq, Repr

def Role.tag : Role → RoleTag
  | .follower _ => .follower
  | .candidate => .candidate
  | .leader _ => .leader

def Role.isLeader : Role → Bool
  | .leader _ => true
  | _ => false

/-- src/role.rs `State`.  `peers` keeps the keys of the endpoint→client map
(the RPC client handles are transport, outside the embedding); `interval`
is in milliseconds. -/
structure State where
  endpoint : Endpoint
  peers : List Endpoint
  logger : Logger
  role : Role
  interval : Option Nat
deriving DecidableEq, Repr

/-- `State::sign()`. -/
def State.sign (s : State) : Signature :=
  ⟨s.endpoint, s.logger.term, s.logger.last_seq_id⟩

def ELECTION_INTERVAL_MIN : Nat := 100

/-- `State::become_follower()`; `ei` is the freshly rolled election
interval (`election_interval()` is random, so it is an argument). -/
def State.become_follower (s : State) (ei : Nat) : State :=
  { s with interval := some ei, role := .follower none }

/-- `State::become_candidate()`. -/
def State.become_candidate (s : State) : State :=
  { s with interval := none, role := .candidate }

/-- `State::become_leader()`: interval `ELECTION_INTERVAL_MIN / 2`, fresh
`Diverged::new(self.logger.applied())` per peer. -/
def State.become_leader (s : State) : State :=
  { s with
    interval := some (ELECTION_INTERVAL_MIN / 2)
    role := .leader (s.peers.map fun p => (p, Diverged.new s.logger.applied)) }

/-- The `voted` field when Follower, else nothing recorded. -/
def State.voted_for (s : State) : Option Endpoint :=
  match s.role with
  | .follower voted => voted
  | _ => none

/-- src/role.rs `State::follower_grant(candidate)`.  `none` is a panic:
the entry `assert!(candidate.term >= self.logger.term())`, a failed
`set_term` assertion, or the `unreachable!()` arm for non-Followers. -/
def State.follower_grant (s : State) (candidate : Signature) : Option (Vote × State) :=
  if candidate.term < s.logger.term then none
  else
    match s.role with
    | .follower voted =>
        (if s.logger.term < candidate.term then
           (s.logger.set_term candidate.term).map fun lg => { s with logger := lg }
         else some s).bind fun s1 =>
          if (match voted with
              | some v => v != candidate.endpoint
              | none => false) then
            some (Vote.deny s1.sign, s1)
          else if optSeqGe candidate.seq_id s1.logger.last_seq_id then
            some (Vote.grant s1.sign, s1)
          else
            some (Vote.deny s1.sign, s1)
    | _ => none

/-- src/role.rs `State::grant(candidate)`: deny stale terms outright; a
Follower delegates to `follower_grant`; Candidate/Leader demote and adopt
the term first when the candidate's term is higher, else deny. -/
def State.grant (s : State) (ei : Nat) (candidate : Signature) : Option (Vote × State) :=
  if candidate.term < s.logger.term then some (Vote.deny s.sign, s)
  else
    match s.role with
    | .follower _ => s.follower_grant candidate
    | _ =>
        if s.logger.term < candidate.term then
          let s1 := s.become_follower ei
          ((s1.logger.set_term candidate.term).map fun lg =>
              { s1 with logger := lg }).bind fun s2 => s2.follower_grant candidate
        else some (Vote.deny s.sign, s)

/-- src/role.rs `State::candidate_step`, from the decision point on: the
vote solicitation is concurrent I/O, so the collected `granted` count is a
parameter.  The term was already incremented by `new_term` at entry. -/
def State.candidate_step (s : State) (granted : Nat) : State :=
  let lg := (s.logger.new_term).2
  let s1 := { s with logger := lg }
  if s1.peers.length / 2 ≤ granted then s1.become_leader else s1

/-- src/role.rs `State::leader_step`: broadcasts heartbeats and only logs
the receipts (`TODO handling when term is greater`); `none` is the
`unreachable!()` arm for non-Leaders.  A `none` receipt is a failed RPC
(logged and dropped, like every other receipt). -/
def State.leader_step (s : State) (receipts : List (Option Receipt)) : Option State :=
  match receipts, s.role with
  | _, .leader _ => some s
  | _, _ => none

/-- The granted/denied decision of a grant call, `none` when it panics. -/
def voteDecision (r : Option (Vote × State)) : Option Bool :=
  r.map fun p => p.1.granted

namespace Peer

/-- src/peer.rs `FollowerState { next, matched }`. -/
structure FollowerState where
  next : Nat
  matched : Option SequenceID
deriving DecidableEq, Repr

/-- src/peer.rs `Role` (the older-generation role type, with
`leader_alive` on the Follower variant). -/
inductive PRole where
  | leader (followers : List (Endpoint × FollowerState))
  | candidate
  | follower (voted : Option Endpoint) (leader_alive : Bool)
deriving DecidableEq, Repr

/-- src/peer.rs `PeerState { role, logs }`. -/
structure PeerState where
  role : PRole
  logs : Logger
deriving DecidableEq, Repr

/-- src/peer.rs `Peer::append(leader, term)`.  `host` is `self.host`; the
state lives behind `self.state`'s mutex, which serialises calls, so it is
passed explicitly.  `leader` is only logged.  `none` is the
`unimplemented!()` arm hit when the accept path runs while the role is
Leader. -/
def append (host : Endpoint) (s : PeerState) (leader : Endpoint) (term : Nat) :
    Option (Receipt × PeerState) :=
  if term < s.logs.term then
    some ({ endpoint := host, success := false, term := s.logs.term }, s)
  else
    let s1 : PeerState := { s with logs := { s.logs with term := term } }
    match leader, s1.role with
    | _, .follower _ _ =>
        some ({ endpoint := host, success := true, term := s1.logs.term },
              { s1 with role := .follower none true })
    | _, .candidate =>
        some ({ endpoint := host, success := true, term := s1.logs.term },
              { s1 with role := .follower none true })
    | _, .leader _ => none

end Peer

/-! Concrete fixtures used by the evaluation theorems. -/

def epA : Endpoint := ⟨"10.0.0.1", 7001⟩
def epB : Endpoint := ⟨"10.0.0.2", 7002⟩
def epC : Endpoint := ⟨"10.0.0.3", 7003⟩

/-! Helper lemmas. -/

lemma natCmp_lt_iff {a b : Nat} : natCmp a b = .lt ↔ a < b := by
  unfold natCmp
  split_ifs with h1 h2 <;> simp_all

lemma natCmp_eq_iff {a b : Nat} : natCmp a b = .eq ↔ a = b := by
  unfold natCmp
  split_ifs with h1 h2 <;> simp_all <;> omega

lemma natCmp_gt_iff {a b : Nat} : natCmp a b = .gt ↔ b < a := by
  unfold natCmp
  split_ifs with h1 h2 <;> simp_all <;> omega

lemma seq_cmp_lt_iff (a b : SequenceID) :
    a.cmp b = .lt ↔ a.term < b.term ∨ (a.term = b.term ∧ a.index < b.index) := by
  unfold SequenceID.cmp
  cases h : natCmp a.term b.term with
  | lt =>
      rw [natCmp_lt_iff] at h
      simp [Ordering.then, h]
  | eq =>
      rw [natCmp_eq_iff] at h
      simp [Ordering.then, h, natCmp_lt_iff]
  | gt =>
      rw [natCmp_gt_iff] at h
      simp [Ordering.then]
      omega

lemma seq_eq_iff (a b : SequenceID) :
    a = b ↔ a.term = b.term ∧ a.index = b.index := by
  cases a with | mk ta ia => cases b with | mk tb ib => simp

/-- Every non-panicking `grant` call leaves the state exactly as it was:
the mutating paths (`become_follower` + `set_term`, and the Follower-side
`set_term`) all run into the inverted `set_term` assertion and panic. -/
lemma grant_post (s : State) (ei : Nat) (c : Signature) (v : Vote) (s' : State)
    (h : s.grant ei c = some (v, s')) : s' = s := by
  rcases s with ⟨ep, peers, lg, role, itv⟩
  cases role with
  | follower voted =>
      simp only [State.grant, State.follower_grant, Logger.set_term] at h
      by_cases h1 : c.term < lg.term
      · simp [h1] at h
        exact h.2.symm
      · simp only [if_neg h1] at h
        by_cases h2 : lg.term < c.term
        · have h3 : ¬ (lg.term > c.term) := by omega
          simp [h2, h3] at h
        · simp only [if_neg h2, Option.some_bind] at h
          split_ifs at h <;> simp_all
  | candidate =>
      simp only [State.grant, State.become_follower, State.follower_grant,
        Logger.set_term] at h
      by_cases h1 : c.term < lg.term
      · simp [h1] at h
        exact h.2.symm
      · simp only [if_neg h1] at h
        by_cases h2 : lg.term < c.term
        · have h3 : ¬ (lg.term > c.term) := by omega
          simp [h2, h3] at h
        · simp [h2] at h
          exact h.2.symm
  | leader fol =>
      simp only [State.grant, State.become_follower, State.follower_grant,
        Logger.set_term] at h
      by_cases h1 : c.term < lg.term
      · simp [h1] at h
        exact h.2.symm
      · simp only [if_neg h1] at h
        by_cases h2 : lg.term < c.term
        · have h3 : ¬ (lg.term > c.term) := by omega
          simp [h2, h3] at h
        · simp [h2] at h
          exact h.2.symm

/-- The grant decision as a function of the role variant, the recorded
vote, the current term and the last applied SequenceID only. -/
def grantDecision (tag : RoleTag) (voted : Option Endpoint) (term : Nat)
    (last : Option SequenceID) (c : Signature) : Option Bool :=
  if c.term < term then some false
  else if term < c.term then none
  else
    match tag with
    | .follower =>
        if (match voted with
            | some v => v != c.endpoint
            | none => false) then some false
        else some (optSeqGe c.seq_id last)
    | _ => some false

lemma grant_decision_closed (s : State) (ei : Nat) (c : Signature) :
    voteDecision (s.grant ei c) =
      grantDecision s.role.tag s.voted_for s.logger.term s.logger.last_seq_id c := by
  rcases s with ⟨ep, peers, lg, role, itv⟩
  cases role with
  | follower voted =>
      simp only [State.grant, State.follower_grant, Logger.set_term, State.voted_for,
        Role.tag, grantDecision, voteDecision, Vote.grant, Vote.deny]
      by_cases h1 : c.term < lg.term
      · simp [h1]
      · simp only [if_neg h1]
        by_cases h2 : lg.term < c.term
        · have h3 : ¬ (lg.term > c.term) := by omega
          simp [h2, h3]
        · simp only [if_neg h2, Option.some_bind]
          split_ifs with h4 h5 <;> simp_all
  | candidate =>
      simp only [State.grant, State.become_follower, State.follower_grant,
        Logger.set_term, State.voted_for, Role.tag, grantDecision, voteDecision,
        Vote.grant, Vote.deny]
      by_cases h1 : c.term < lg.term
      · simp [h1]
      · simp only [if_neg h1]
        by_cases h2 : lg.term < c.term
        · have h3 : ¬ (lg.term > c.term) := by omega
          simp [h2, h3]
        · simp [h2]
  | leader fol =>
      simp only [State.grant, State.become_follower, State.follower_grant,
        Logger.set_term, State.voted_for, Role.tag, grantDecision, voteDecision,
        Vote.grant, Vote.deny]
      by_cases h1 : c.term < lg.term
      · simp [h1]
      · simp only [if_neg h1]
        by_cases h2 : lg.term < c.term
        · have h3 : ¬ (lg.term > c.term) := by omega
          simp [h2, h3]
        · simp [h2]

/-! Claim theorems. -/

/-- C1: `Logger::set_term(t)` is claimed to force-set the term exactly when
`t` is strictly greater than the current term and to hit a fatal assertion
when `t ≤` the current term.  The code's assertion is inverted: `set_term`
succeeds exactly when `t` is strictly LESS than the current term (moving
the term backward) and panics whenever `t ≥` the current term — in
particular it panics on the claimed success case current term 1, t = 2,
and succeeds on the claimed failure case current term 1, t = 0. -/
theorem c1_set_term_assert_inverted :
    (∀ (l : Logger) (t : Nat),
       l.set_term t = if t < l.term then some { l with term := t } else none) ∧
    Logger.set_term ⟨1, [], 0, 0⟩ 2 = none ∧
    Logger.set_term ⟨1, [], 0, 0⟩ 0 = some ⟨0, [], 0, 0⟩ :=
  ⟨fun _ _ => rfl, rfl, rfl⟩

/-- C2: for a candidate term strictly above the node's term, `grant` is
claimed to adopt the term, demote to Follower and complete without a fatal
assertion, whatever the current role.  In the code every such call reaches
`Logger::set_term`, whose inverted assertion `assert!(self.term > term)`
fails, so the call panics (`none`) for a Follower, a Candidate and a
Leader alike: here each role sits at term 0 and receives a request with
candidate term 1. -/
theorem c2_grant_panics_on_higher_term :
    State.grant ⟨epA, [epB, epC], ⟨0, [], 0, 0⟩, .follower none, some 150⟩ 120
        ⟨epB, 1, none⟩ = none ∧
    State.grant ⟨epA, [epB, epC], ⟨0, [], 0, 0⟩, .candidate, none⟩ 120
        ⟨epB, 1, none⟩ = none ∧
    State.grant ⟨epA, [epB, epC], ⟨0, [], 0, 0⟩, .leader [], some 50⟩ 120
        ⟨epB, 1, none⟩ = none :=
  ⟨rfl, rfl, rfl⟩

/-- The Follower fixture for C3: term 1, empty log, no vote recorded. -/
def c3State : State := ⟨epA, [epB, epC], ⟨1, [], 0, 0⟩, .follower none, some 150⟩

/-- C3: a granted vote is claimed to record `voted_for = candidate`, making
a second same-term grant to a different endpoint impossible.  The code
never writes the `voted` field: granting to `epB` returns the state
unchanged (`voted_for` still `none`), and an immediately following request
by the different candidate `epC` in the same term is granted as well. -/
theorem c3_vote_never_recorded :
    State.grant c3State 120 ⟨epB, 1, none⟩ = some (Vote.grant c3State.sign, c3State) ∧
    c3State.voted_for = none ∧
    voteDecision (State.grant c3State 120 ⟨epC, 1, none⟩) = some true :=
  ⟨rfl, rfl, rfl⟩

/-- C4: from the decision point of a Candidate step, the node becomes
Leader iff the granted count is at least `peers.len() / 2`; at the
boundary, `granted = peers.len() / 2` yields Leader and
`granted = peers.len() / 2 - 1` does not (when the threshold is
positive). -/
theorem c4_candidate_quorum (s : State) (granted : Nat) (h : s.role = Role.candidate) :
    ((s.candidate_step granted).role.isLeader = true ↔ s.peers.length / 2 ≤ granted) ∧
    (1 ≤ s.peers.length / 2 →
      (s.candidate_step (s.peers.length / 2)).role.isLeader = true ∧
      (s.candidate_step (s.peers.length / 2 - 1)).role.isLeader = false) := by
  unfold State.candidate_step Logger.new_term State.become_leader
  constructor
  · by_cases hg : s.peers.length / 2 ≤ granted
    · simp [hg, Role.isLeader]
    · simp [hg, Role.isLeader, h]
  · intro h1
    have h2 : ¬ (s.peers.length / 2 ≤ s.peers.length / 2 - 1) := by omega
    constructor
    · simp [Role.isLeader]
    · simp [h2, Role.isLeader, h]

/-- The Candidate fixture for C4: four peers, so the threshold is 2. -/
def c4State : State := ⟨epA, [epB, epC, epB, epC], ⟨0, [], 0, 0⟩, .candidate, none⟩

/-- Witness for C4 at a Candidate with four peers and two granted votes. -/
theorem c4_candidate_quorum_witness :
    ((c4State.candidate_step 2).role.isLeader = true ↔ c4State.peers.length / 2 ≤ 2) ∧
    (1 ≤ c4State.peers.length / 2 →
      (c4State.candidate_step (c4State.peers.length / 2)).role.isLeader = true ∧
      (c4State.candidate_step (c4State.peers.length / 2 - 1)).role.isLeader = false) :=
  c4_candidate_quorum c4State 2 rfl

/-- C5: `Peer::append` is claimed to reject a stale term unchanged with its
own term, and to accept (adopt term, clear `voted`, mark the leader alive,
`success=true`) for a Follower, a Candidate, and a stepping-down Leader
alike.  The reject and the Follower/Candidate accept paths behave as
claimed, but the Leader arm of the accept path is `unimplemented!()` and
panics (`none`): term 4 against a term-6 Follower is rejected with term 6;
term 6 against a term-4 Follower or Candidate is accepted; term 5 against
a term-3 Leader panics instead of succeeding. -/
theorem c5_append_leader_unimplemented :
    Peer.append epB ⟨.follower (some epC) false, ⟨6, [], 0, 0⟩⟩ epA 4
      = some (⟨false, 6, epB⟩, ⟨.follower (some epC) false, ⟨6, [], 0, 0⟩⟩) ∧
    Peer.append epB ⟨.follower (some epC) false, ⟨4, [], 0, 0⟩⟩ epA 6
      = some (⟨true, 6, epB⟩, ⟨.follower none true, ⟨6, [], 0, 0⟩⟩) ∧
    Peer.append epB ⟨.candidate, ⟨4, [], 0, 0⟩⟩ epA 6
      = some (⟨true, 6, epB⟩, ⟨.follower none true, ⟨6, [], 0, 0⟩⟩) ∧
    Peer.append epB ⟨.leader [], ⟨3, [], 0, 0⟩⟩ epA 5 = none :=
  ⟨rfl, rfl, rfl, rfl⟩

/-- The Leader fixture for C6: term 3 with two followers. -/
def c6State : State :=
  ⟨epA, [epB, epC], ⟨3, [], 0, 0⟩, .leader [(epB, ⟨0, none⟩), (epC, ⟨0, none⟩)], some 50⟩

/-- C6: a Leader step that receives a Receipt with a strictly higher term
is claimed to step down to Follower.  The code only logs receipts (its
higher-term handling is a TODO): a term-3 Leader that receives a receipt
carrying term 10 keeps its state unchanged and is still Leader. -/
theorem c6_leader_ignores_higher_term_receipt :
    c6State.logger.term < (10 : Nat) ∧
    State.leader_step c6State [some ⟨false, 10, epB⟩] = some c6State ∧
    c6State.role.isLeader = true :=
  ⟨by decide, rfl, rfl⟩

/-- C7: `last_seq_id()` returns `None` exactly when the log is empty, and
on a non-empty log returns the entry at the `applied` cursor (the most
recently applied entry), for every Logger built by `Logger::new`. -/
theorem c7_last_seq_id_none_iff_empty (sids : List SequenceID) :
    ((Logger.new sids).last_seq_id = none ↔ sids = []) ∧
    (Logger.new sids).last_seq_id
      = (Logger.new sids).entries.get? (Logger.new sids).applied := by
  refine ⟨?_, rfl⟩
  cases sids with
  | nil => simp [Logger.new, Logger.last_seq_id, default]
  | cons a as =>
      have hl : (Logger.new (a :: as)).last_seq_id = some a := by
        unfold Logger.new
        cases hg : (a :: as).getLast? with
        | none => simp at hg
        | some x => simp [Logger.last_seq_id]
      simp [hl]

/-- C8: the derived `SequenceID` ordering is the lexicographic
term-then-index order, and it is trichotomous: for every pair exactly one
of `a < b`, `a = b`, `b < a` holds. -/
theorem c8_seqid_lex_total_order (a b : SequenceID) :
    (a.cmp b = .lt ↔ a.term < b.term ∨ (a.term = b.term ∧ a.index < b.index)) ∧
    ((if a.cmp b = .lt then 1 else 0) + (if a = b then 1 else 0) +
      (if b.cmp a = .lt then 1 else 0) = (1 : Nat)) := by
  refine ⟨seq_cmp_lt_iff a b, ?_⟩
  simp only [seq_cmp_lt_iff, seq_eq_iff]
  split_ifs <;> omega

/-- The Follower fixture for the C9 counterexample: term 2, no vote. -/
def c9Follower : State := ⟨epA, [epB, epC], ⟨2, [], 0, 0⟩, .follower none, some 150⟩

/-- A Leader agreeing with `c9Follower` on term, recorded vote (none) and
last SequenceID. -/
def c9Leader : State := ⟨epA, [epB, epC], ⟨2, [], 0, 0⟩, .leader [(epB, ⟨0, none⟩)], some 50⟩

/-- C9 counterexample: the claim says the grant decision is determined by
`(term, voted_for, last_seq_id)` and the candidate signature regardless of
the current role.  These two states agree on all three values, yet on the
same equal-term request the Follower grants while the Leader denies — the
role is a fourth input the decision depends on. -/
theorem c9_role_matters_counterexample :
    c9Follower.logger.term = c9Leader.logger.term ∧
    c9Follower.voted_for = c9Leader.voted_for ∧
    c9Follower.logger.last_seq_id = c9Leader.logger.last_seq_id ∧
    voteDecision (c9Follower.grant 120 ⟨epB, 2, none⟩) = some true ∧
    voteDecision (c9Leader.grant 120 ⟨epB, 2, none⟩) = some false :=
  ⟨rfl, rfl, rfl, rfl, rfl⟩

/-- C9 amended: the grant decision is deterministic in
`(role variant, term, voted_for, last_seq_id)` and the candidate's
signature — any two states agreeing on those four produce the same
granted/denied/panic outcome for equal requests, whatever the rolled
election intervals; and when a call completes, repeating the identical
request against the resulting state yields the same decision again. -/
theorem c9_grant_deterministic (ei1 ei2 : Nat) (s1 s2 : State) (c : Signature)
    (v : Vote) (s1' : State)
    (hrole : s1.role.tag = s2.role.tag)
    (hterm : s1.logger.term = s2.logger.term)
    (hvote : s1.voted_for = s2.voted_for)
    (hseq : s1.logger.last_seq_id = s2.logger.last_seq_id) :
    voteDecision (s1.grant ei1 c) = voteDecision (s2.grant ei2 c) ∧
    (s1.grant ei1 c = some (v, s1') →
      voteDecision (s1'.grant ei1 c) = some v.granted) := by
  constructor
  · rw [grant_decision_closed, grant_decision_closed, hrole, hterm, hvote, hseq]
  · intro h
    have hpost := grant_post s1 ei1 c v s1' h
    subst hpost
    rw [h]
    rfl

/-- A second Follower agreeing with `c9Follower` on the decision inputs
but differing in interval and peer order. -/
def c9Follower2 : State := ⟨epA, [epC, epB], ⟨2, [], 0, 0⟩, .follower none, some 300⟩

/-- Witness for C9 amended, on two agreeing Follower states at term 2 and
an equal-term request that completes with a granted vote. -/
theorem c9_grant_deterministic_witness :
    voteDecision (c9Follower.grant 120 ⟨epB, 2, none⟩)
      = voteDecision (c9Follower2.grant 300 ⟨epB, 2, none⟩) ∧
    (c9Follower.grant 120 ⟨epB, 2, none⟩
        = some (Vote.grant c9Follower.sign, c9Follower) →
      voteDecision (c9Follower.grant 120 ⟨epB, 2, none⟩)
        = some (Vote.grant c9Follower.sign).granted) :=
  c9_grant_deterministic 120 300 c9Follower c9Follower2 ⟨epB, 2, none⟩
    (Vote.grant c9Follower.sign) c9Follower rfl rfl rfl rfl

/-- C10: a non-panicking `grant` call never touches the log's entry
sequence, the committed or applied cursors, the node's own endpoint or its
peer set — only term, role and interval are allowed to change (and in fact
nothing changes, since every mutating path panics in `set_term`). -/
theorem c10_grant_frame (ei : Nat) (s : State) (c : Signature) (v : Vote) (s' : State)
    (h : s.grant ei c = some (v, s')) :
    s'.logger.entries = s.logger.entries ∧
    s'.logger.committed = s.logger.committed ∧
    s'.logger.applied = s.logger.applied ∧
    s'.endpoint = s.endpoint ∧
    s'.peers = s.peers := by
  have hpost := grant_post s ei c v s' h
  subst hpost
  exact ⟨rfl, rfl, rfl, rfl, rfl⟩

/-- The Follower fixture for the C10 witness: term 5, already voted for
`epA`, which also sends the request. -/
def c10State : State := ⟨epB, [epA, epC], ⟨5, [], 0, 0⟩, .follower (some epA), some 250⟩

/-- Witness for C10 on a completed grant call at term 5. -/
theorem c10_grant_frame_witness :
    c10State.logger.entries = c10State.logger.entries ∧
    c10State.logger.committed = c10State.logger.committed ∧
    c10State.logger.applied = c10State.logger.applied ∧
    c10State.endpoint = c10State.endpoint ∧
    c10State.peers = c10State.peers :=
  c10_grant_frame 130 c10State ⟨epA, 5, none⟩ (Vote.grant c10State.sign) c10State rfl
